import Mathlib

/-!
# wrapper.h of cryptoki-bridge: the preprocessor preamble in front of pkcs11.h

`src/wrapper.h` is a list of preprocessing directives.  This development embeds

* the directives of the header, line by line (`preamble`, `wrapper_h`);
* the part of the C preprocessor that gives them a meaning: the table of
  definitions, conditional groups, `#define`, and the expansion of object-like and
  function-like names with argument pre-expansion, rescanning and hide sets.

The operators `#` and `##` and variadic parameters are not used by the header and
are not part of the model.  The file `pkcs11.h` that line 22 includes is not part of
the source: an inclusion is recorded together with the environment the included file
sees, and what the included file then does is left open.
-/

namespace Wrapper

/-! ## Data model -/

/-- Preprocessing tokens: identifiers, pp-numbers and punctuators. -/
inductive Token where
  | ident (s : String)
  | number (s : String)
  | punct (s : String)
  deriving DecidableEq, Repr

/-- The punctuator that opens an argument list. -/
def lparen : Token := .punct "("

/-- The punctuator that closes an argument list. -/
def rparen : Token := .punct ")"

/-- The punctuator `*`. -/
def star : Token := .punct "*"

/-- What a `#define` binds to a name: a replacement list, with a parameter list for
the function-like form. -/
inductive Defn where
  | object (body : List Token)
  | function (params : List String) (body : List Token)
  deriving DecidableEq, Repr

/-- The table of definitions in force at some point of a translation unit. -/
abbrev Env := String → Option Defn

/-- The environment with nothing defined. -/
def emptyEnv : Env := fun _ => none

/-- The environment `env` after `#define name d`. -/
def Env.bind (env : Env) (name : String) (d : Defn) : Env :=
  fun n => if n = name then some d else env n

/-- The directives that occur in the header. -/
inductive Directive where
  | define (name : String) (d : Defn)
  | ifdef (name : String)
  | ifndef (name : String)
  | else_
  | endif
  | include (file : String)
  deriving DecidableEq, Repr

/-- One open conditional section: whether the enclosing group is processed, whether
the controlling condition held, and whether its `#else` has been met. -/
structure Cond where
  outer : Bool
  taken : Bool
  seenElse : Bool
  deriving DecidableEq, Repr

/-- A `#define` that was carried out, with the definition the name had before. -/
structure DefineEvent where
  name : String
  defn : Defn
  prior : Option Defn
  deriving DecidableEq, Repr

/-- An `#include` that was carried out, with the environment the included file sees. -/
structure IncludeEvent where
  file : String
  env : Env

/-- The state of the preprocessor while it walks through the directives. -/
structure State where
  env : Env
  active : Bool
  conds : List Cond
  defines : List DefineEvent
  includes : List IncludeEvent
  errors : List String

/-- The state in which a file starts to be processed. -/
def State.init (env : Env) : State :=
  { env := env, active := true, conds := [], defines := [], includes := [], errors := [] }

/-! ## The header -/

/-- Line 1: the replacement list of `CK_PTR`. -/
def CK_PTR : Defn :=
  .object [star]

/-- Line 4: the replacement list of `STDCALL` in the `_WIN32` group. -/
def STDCALL_win32 : Defn :=
  .object [.ident "__stdcall"]

/-- Line 6: the (empty) replacement list of `STDCALL` in the `#else` group. -/
def STDCALL_other : Defn :=
  .object []

/-- Lines 9 and 10: `CK_DECLARE_FUNCTION(returnType, name)`. -/
def CK_DECLARE_FUNCTION : Defn :=
  .function ["returnType", "name"]
    [.ident "returnType", .ident "STDCALL", .ident "name"]

/-- Lines 12 and 13: `CK_DECLARE_FUNCTION_POINTER(returnType, name)`. -/
def CK_DECLARE_FUNCTION_POINTER : Defn :=
  .function ["returnType", "name"]
    [.ident "returnType", lparen, star, .ident "STDCALL", .ident "name", rparen]

/-- Lines 15 and 16: `CK_CALLBACK_FUNCTION(returnType, name)`. -/
def CK_CALLBACK_FUNCTION : Defn :=
  .function ["returnType", "name"]
    [.ident "returnType", lparen, star, .ident "STDCALL", .ident "name", rparen]

/-- Line 19: the replacement list of the `NULL_PTR` fallback. -/
def NULL_PTR : Defn :=
  .object [.number "0"]

/-- Lines 1 to 20 of `wrapper.h`: every directive before the inclusion. -/
def preamble : List Directive :=
  [ .define "CK_PTR" CK_PTR,                                            -- line 1
    Directive.ifdef "_WIN32",                                              -- line 3
    .define "STDCALL" STDCALL_win32,                                    -- line 4
    .else_,                                                             -- line 5
    .define "STDCALL" STDCALL_other,                                    -- line 6
    .endif,                                                             -- line 7
    .define "CK_DECLARE_FUNCTION" CK_DECLARE_FUNCTION,                  -- lines 9, 10
    .define "CK_DECLARE_FUNCTION_POINTER" CK_DECLARE_FUNCTION_POINTER,  -- lines 12, 13
    .define "CK_CALLBACK_FUNCTION" CK_CALLBACK_FUNCTION,                -- lines 15, 16
    Directive.ifndef "NULL_PTR",                                           -- line 18
    .define "NULL_PTR" NULL_PTR,                                        -- line 19
    .endif ]                                                            -- line 20

/-- The whole of `wrapper.h`: the preamble, then line 22. -/
def wrapper_h : List Directive :=
  preamble ++ [.include "pkcs11.h"]

/-! ## Directive processing -/

/-- The effect of one directive on the state. -/
def step (st : State) : Directive → State
  | .define name d =>
    if st.active then
      { st with
        env := st.env.bind name d
        defines := st.defines ++ [{ name := name, defn := d, prior := st.env name }] }
    else st
  | Directive.ifdef name =>
    let c := (st.env name).isSome
    { st with
      conds := { outer := st.active, taken := c, seenElse := false } :: st.conds
      active := st.active && c }
  | Directive.ifndef name =>
    let c := (st.env name).isNone
    { st with
      conds := { outer := st.active, taken := c, seenElse := false } :: st.conds
      active := st.active && c }
  | .else_ =>
    match st.conds with
    | [] => { st with errors := st.errors ++ ["#else without #if"] }
    | c :: cs =>
      if c.seenElse then { st with errors := st.errors ++ ["#else after #else"] }
      else
        { st with
          conds := { c with seenElse := true } :: cs
          active := c.outer && !c.taken }
  | .endif =>
    match st.conds with
    | [] => { st with errors := st.errors ++ ["#endif without #if"] }
    | c :: cs => { st with conds := cs, active := c.outer }
  | .include file =>
    if st.active then
      { st with includes := st.includes ++ [{ file := file, env := st.env }] }
    else st

/-- The state after a list of directives, starting from the environment `env`. -/
def process (ds : List Directive) (env : Env) : State :=
  ds.foldl step (State.init env)

/-- The environment that lines 1 to 20 of the header leave behind. -/
def preambleEnv (env : Env) : Env :=
  (process preamble env).env

/-- The `#define` directives of a run that hit a name which was already defined. -/
def redefinitions (st : State) : List DefineEvent :=
  st.defines.filter fun ev => ev.prior.isSome

/-- Whether a definition is object-like. -/
def Defn.isObject : Defn → Bool
  | .object _ => true
  | .function _ _ => false

/-- The number of parameters of a function-like definition. -/
def Defn.arity : Defn → Option Nat
  | .object _ => none
  | .function params _ => some params.length

/-! ## Expansion -/

/-- A token together with its hide set: the names that may no longer be expanded in
it, because the token came out of their replacement. -/
structure HTok where
  tok : Token
  hide : List String
  deriving DecidableEq, Repr

/-- Source tokens carry the empty hide set. -/
def fresh (ts : List Token) : List HTok :=
  ts.map fun t => { tok := t, hide := [] }

/-- Add the names `hs` to the hide set of every token. -/
def hsadd (hs : List String) (ts : List HTok) : List HTok :=
  ts.map fun t => { t with hide := t.hide ++ hs }

/-- The replacement list of a definition. -/
def Defn.body : Defn → List Token
  | .object body => body
  | .function _ body => body

/-- A target that defines `_WIN32` (as `1`) and nothing else. -/
def win32Env : Env :=
  emptyEnv.bind "_WIN32" (.object [.number "1"])

/-- A `_WIN32` target on which `__stdcall` is itself a name with a definition:
`__attribute__((__stdcall__))`. -/
def mingwEnv : Env :=
  win32Env.bind "__stdcall"
    (.object [.ident "__attribute__", lparen, lparen, .ident "__stdcall__", rparen, rparen])

/-- An earlier include has defined `NULL_PTR` as `((void *)0)`. -/
def nullDefinedEnv : Env :=
  emptyEnv.bind "NULL_PTR"
    (.object [lparen, lparen, .ident "void", star, rparen, .number "0", rparen])

/-- An earlier include has defined `NULL_PTR(x)`, function-like, as `0`. -/
def nullFunctionEnv : Env :=
  emptyEnv.bind "NULL_PTR" (.function ["x"] [.number "0"])

/-- An earlier include has defined `CK_PTR` as `__far *`. -/
def farPtrEnv : Env :=
  emptyEnv.bind "CK_PTR" (.object [.ident "__far", star])

/-- Pointwise description of the environment after lines 1 to 20. -/
theorem preambleEnv_apply (env : Env) (n : String) :
    preambleEnv env n =
      if n = "NULL_PTR" then
        (match env "NULL_PTR" with
          | some d => some d
          | none => some NULL_PTR)
      else if n = "CK_CALLBACK_FUNCTION" then some CK_CALLBACK_FUNCTION
      else if n = "CK_DECLARE_FUNCTION_POINTER" then some CK_DECLARE_FUNCTION_POINTER
      else if n = "CK_DECLARE_FUNCTION" then some CK_DECLARE_FUNCTION
      else if n = "STDCALL" then
        (if (env "_WIN32").isSome then some STDCALL_win32 else some STDCALL_other)
      else if n = "CK_PTR" then some CK_PTR
      else env n := by
  unfold preambleEnv process preamble
  cases hw : env "_WIN32" <;> cases hn : env "NULL_PTR" <;>
    simp [List.foldl, step, State.init, Env.bind, hw, hn]
  all_goals (by_cases h : n = "NULL_PTR" <;> simp [h, hn])

/-- The `#define` directives lines 1 to 20 carry out, in order, each with the definition
its name had in the initial environment. -/
theorem preamble_defines (env : Env) :
    (process preamble env).defines =
      [ { name := "CK_PTR", defn := CK_PTR, prior := env "CK_PTR" },
        { name := "STDCALL",
          defn := if (env "_WIN32").isSome then STDCALL_win32 else STDCALL_other,
          prior := env "STDCALL" },
        { name := "CK_DECLARE_FUNCTION", defn := CK_DECLARE_FUNCTION,
          prior := env "CK_DECLARE_FUNCTION" },
        { name := "CK_DECLARE_FUNCTION_POINTER", defn := CK_DECLARE_FUNCTION_POINTER,
          prior := env "CK_DECLARE_FUNCTION_POINTER" },
        { name := "CK_CALLBACK_FUNCTION", defn := CK_CALLBACK_FUNCTION,
          prior := env "CK_CALLBACK_FUNCTION" } ] ++
      (if (env "NULL_PTR").isSome then []
        else [{ name := "NULL_PTR", defn := NULL_PTR, prior := none }]) := by
  unfold process preamble
  cases hw : env "_WIN32" <;> cases hn : env "NULL_PTR" <;>
    simp [List.foldl, step, State.init, Env.bind, hw, hn]

/-- The inclusion on line 22 is carried out once, and the included file sees the
environment of lines 1 to 20. -/
theorem wrapper_includes (env : Env) :
    (process wrapper_h env).includes = [{ file := "pkcs11.h", env := preambleEnv env }] := by
  unfold preambleEnv wrapper_h process preamble
  cases hw : env "_WIN32" <;> cases hn : env "NULL_PTR" <;>
    simp [List.foldl, step, State.init, Env.bind, hw, hn]

/-! ## Fuel -/

theorem fresh_append (p q : List Token) : fresh (p ++ q) = fresh p ++ fresh q := by
  simp [fresh]

theorem hsadd_append (hs : List String) (p q : List HTok) :
    hsadd hs (p ++ q) = hsadd hs p ++ hsadd hs q := by
  simp [hsadd]

/-- C3: a `NULL_PTR` that is already defined keeps its definition through lines 1 to
20, whatever that definition is; a `NULL_PTR` that is not defined comes out defined as
the object-like name with replacement list `0`. -/
theorem null_ptr_kept_or_zero (env : Env) :
    ((env "NULL_PTR").isSome = true → preambleEnv env "NULL_PTR" = env "NULL_PTR") ∧
    (env "NULL_PTR" = none →
      preambleEnv env "NULL_PTR" = some (.object [.number "0"])) := by
  rw [preambleEnv_apply]
  cases hn : env "NULL_PTR" <;> simp [NULL_PTR]

/-- C3 at two concrete inputs: `NULL_PTR` predefined as `((void *)0)` is kept, and
from the empty environment it becomes `0`. -/
theorem null_ptr_kept_or_zero_witness :
    preambleEnv nullDefinedEnv "NULL_PTR" =
        some (.object [lparen, lparen, .ident "void", star, rparen, .number "0", rparen]) ∧
      preambleEnv emptyEnv "NULL_PTR" = some (.object [.number "0"]) :=
  ⟨(null_ptr_kept_or_zero nullDefinedEnv).1 (by decide),
    (null_ptr_kept_or_zero emptyEnv).2 (by decide)⟩

/-! ## What the included header finds (line 22) -/

/-- C4, as stated, fails: when an earlier include has defined `NULL_PTR` as a
function-like name, line 18 skips the fallback and `pkcs11.h` is included with
`NULL_PTR` still function-like. -/
theorem null_ptr_object_like_counterexample :
    (nullFunctionEnv "NULL_PTR" = some (.function ["x"] [.number "0"])) ∧
      ((process wrapper_h nullFunctionEnv).includes.map fun ev =>
          (ev.file, (ev.env "NULL_PTR").map Defn.isObject)) = [("pkcs11.h", some false)] := by
  constructor
  · decide
  · rw [wrapper_includes]; decide

/-- C4, amended: for every initial environment the header carries out exactly one
inclusion, of `pkcs11.h`, as its last directive, and the included file sees the
environment of lines 1 to 20, in which `CK_DECLARE_FUNCTION`,
`CK_DECLARE_FUNCTION_POINTER` and `CK_CALLBACK_FUNCTION` are function-like with two
parameters, `CK_PTR` is object-like and `NULL_PTR` is defined; `NULL_PTR` is
object-like there exactly when it was not function-like before the header. -/
theorem include_sees_definitions (env : Env) :
    wrapper_h.getLast? = some (.include "pkcs11.h") ∧
    ∃ ev, (process wrapper_h env).includes = [ev] ∧
      ev.file = "pkcs11.h" ∧
      ev.env = preambleEnv env ∧
      (ev.env "CK_DECLARE_FUNCTION").bind Defn.arity = some 2 ∧
      (ev.env "CK_DECLARE_FUNCTION_POINTER").bind Defn.arity = some 2 ∧
      (ev.env "CK_CALLBACK_FUNCTION").bind Defn.arity = some 2 ∧
      (ev.env "CK_PTR").map Defn.isObject = some true ∧
      (ev.env "NULL_PTR").isSome = true ∧
      ((ev.env "NULL_PTR").map Defn.isObject = some true ↔
        (env "NULL_PTR").map Defn.isObject ≠ some false) := by
  refine ⟨by decide, _, wrapper_includes env, rfl, rfl, ?_⟩
  simp only [preambleEnv_apply]
  cases hn : env "NULL_PTR" <;>
    simp [CK_DECLARE_FUNCTION, CK_DECLARE_FUNCTION_POINTER, CK_CALLBACK_FUNCTION, CK_PTR,
      NULL_PTR, Defn.arity, Defn.isObject]

/-! ## Frame of the preamble -/

/-- C5, as stated, fails: `CK_PTR` and `STDCALL` are outside the four names of the
claim, are undefined in the empty environment, and are defined after lines 1 to 20. -/
theorem four_name_frame_counterexample :
    ("CK_PTR" ∉ ["CK_DECLARE_FUNCTION", "CK_DECLARE_FUNCTION_POINTER",
        "CK_CALLBACK_FUNCTION", "NULL_PTR"] ∧
      emptyEnv "CK_PTR" = none ∧
      preambleEnv emptyEnv "CK_PTR" = some (.object [star])) ∧
    ("STDCALL" ∉ ["CK_DECLARE_FUNCTION", "CK_DECLARE_FUNCTION_POINTER",
        "CK_CALLBACK_FUNCTION", "NULL_PTR"] ∧
      emptyEnv "STDCALL" = none ∧
      preambleEnv emptyEnv "STDCALL" = some (.object [])) := by
  decide

/-- C5, amended: lines 1 to 20 change the environment at six names only, the four of
the claim and `CK_PTR` and `STDCALL`; every other name has the same definition status
and the same definition after as before. -/
theorem preamble_frame (env : Env) (n : String)
    (h : n ∉ ["CK_PTR", "STDCALL", "CK_DECLARE_FUNCTION", "CK_DECLARE_FUNCTION_POINTER",
      "CK_CALLBACK_FUNCTION", "NULL_PTR"]) :
    preambleEnv env n = env n := by
  simp only [List.mem_cons, List.mem_singleton, List.not_mem_nil, or_false, not_or] at h
  obtain ⟨h1, h2, h3, h4, h5, h6⟩ := h
  rw [preambleEnv_apply]
  simp [h1, h2, h3, h4, h5, h6]

/-- C5 amended, at a concrete input: `_WIN32`, defined as `1` before the header, is
still defined as `1` after it. -/
theorem preamble_frame_witness :
    preambleEnv win32Env "_WIN32" = some (.object [.number "1"]) :=
  preamble_frame win32Env "_WIN32" (by decide)

/-! ## Redefinitions -/

/-- C6, as stated, fails: with `CK_PTR` already defined (as `__far *`), line 1 is a
`#define` of a name that is defined at that point, and it changes the definition. -/
theorem redefinition_counterexample :
    redefinitions (process wrapper_h farPtrEnv) =
      [{ name := "CK_PTR", defn := .object [star],
         prior := some (.object [.ident "__far", star]) }] := by
  decide

/-- C6, amended: no `#define` of the header hits a name that has a definition at that
point exactly when none of `CK_PTR`, `STDCALL`, `CK_DECLARE_FUNCTION`,
`CK_DECLARE_FUNCTION_POINTER`, `CK_CALLBACK_FUNCTION` has one before the header;
`NULL_PTR` and `_WIN32` may have one or not. -/
theorem no_redefinition_iff (env : Env) :
    redefinitions (process wrapper_h env) = [] ↔
      env "CK_PTR" = none ∧ env "STDCALL" = none ∧ env "CK_DECLARE_FUNCTION" = none ∧
        env "CK_DECLARE_FUNCTION_POINTER" = none ∧ env "CK_CALLBACK_FUNCTION" = none := by
  have hd : (process wrapper_h env).defines = (process preamble env).defines := by
    unfold wrapper_h process
    rw [List.foldl_append]
    simp only [List.foldl_cons, List.foldl_nil, step]
    split <;> rfl
  unfold redefinitions
  rw [hd, preamble_defines]
  rw [List.filter_eq_nil_iff]
  cases h6 : env "NULL_PTR" <;> simp

/-! ## Processing the preamble twice -/

/-- C8: lines 1 to 20 are idempotent as a function on environments, and on a second
pass every `#define` that is carried out gives its name the definition (parameters
and replacement list) the name already has. -/
theorem preamble_idempotent (env : Env) :
    preambleEnv (preambleEnv env) = preambleEnv env ∧
    ∀ ev ∈ (process preamble (preambleEnv env)).defines, ev.prior = some ev.defn := by
  constructor
  · funext n
    rw [preambleEnv_apply (preambleEnv env) n]
    simp only [preambleEnv_apply env]
    cases hw : env "_WIN32" <;> cases hn : env "NULL_PTR" <;>
      simp <;> simp_all
  · rw [preamble_defines]
    simp only [preambleEnv_apply env]
    cases hw : env "_WIN32" <;> cases hn : env "NULL_PTR" <;> simp

/-- C8 at a concrete input: from the plain `_WIN32` target a second pass leaves the
environment as the first pass made it, and each of its `#define` directives finds its
name defined as it defines it. -/
theorem preamble_idempotent_witness :
    preambleEnv (preambleEnv win32Env) = preambleEnv win32Env ∧
      ((process preamble (preambleEnv win32Env)).defines.all fun ev =>
        decide (ev.prior = some ev.defn)) = true :=
  ⟨(preamble_idempotent win32Env).1,
    List.all_eq_true.2 fun ev h => decide_eq_true ((preamble_idempotent win32Env).2 ev h)⟩

/-! ## Dependence on the initial environment -/

/-- C9: two initial environments that agree on whether `_WIN32` is defined get the
same definitions of `CK_PTR`, `STDCALL`, `CK_DECLARE_FUNCTION`,
`CK_DECLARE_FUNCTION_POINTER` and `CK_CALLBACK_FUNCTION` from lines 1 to 20, and
`CK_PTR` is `*` on either branch. -/
theorem definitions_depend_on_win32_only (env₁ env₂ : Env)
    (h : (env₁ "_WIN32").isSome = (env₂ "_WIN32").isSome) :
    (preambleEnv env₁ "CK_PTR" = preambleEnv env₂ "CK_PTR" ∧
      preambleEnv env₁ "STDCALL" = preambleEnv env₂ "STDCALL" ∧
      preambleEnv env₁ "CK_DECLARE_FUNCTION" = preambleEnv env₂ "CK_DECLARE_FUNCTION" ∧
      preambleEnv env₁ "CK_DECLARE_FUNCTION_POINTER" =
        preambleEnv env₂ "CK_DECLARE_FUNCTION_POINTER" ∧
      preambleEnv env₁ "CK_CALLBACK_FUNCTION" = preambleEnv env₂ "CK_CALLBACK_FUNCTION") ∧
    preambleEnv env₁ "CK_PTR" = some (.object [star]) := by
  simp only [preambleEnv_apply]
  simp [h, CK_PTR]

/-- C9 at a concrete input: the environments `mingwEnv` and `win32Env` both define
`_WIN32` and differ elsewhere; the header gives both the same `STDCALL`. -/
theorem definitions_depend_on_win32_only_witness :
    (mingwEnv "_WIN32").isSome = (win32Env "_WIN32").isSome ∧
      preambleEnv mingwEnv "STDCALL" = preambleEnv win32Env "STDCALL" :=
  ⟨by decide, (definitions_depend_on_win32_only mingwEnv win32Env (by decide)).1.2.1⟩

end Wrapper
